import Mathlib

/-! Verification of the resume-analysis backend (interview_assistant).

This file shallowly embeds the parts of the repository that the verified
properties are about:

* `ResumeOptimizer` (src/resume_optimizer.py): the ATS scoring engine
  (format, structure, quantification, keyword sub-scores, overall score,
  feedback generation) and the quantification detector.
* `TemplatesVM` (the `ResumeVersionManager` class of src/resume_optimizer.py,
  backed by data/templates.db): version rows with an exclusive active flag,
  comparison-cache rows, create, set-active, update, delete and the cache
  lookup with its 24 hour window.
* `Rvm` (the `ResumeVersionManager` class of src/resume_version_manager.py,
  backed by data/resume_versions.db): versions whose `is_active` column is a
  soft-delete liveness flag, and the content similarity metric.
* `Parser` (src/enhanced_resume_parser.py): regex keyword matching with
  original-case recovery, the language-model extraction fallback, result
  merging and the parsing-confidence computation.

Numeric conventions: Python integers are `Nat`/`Int`; Python floats are
embedded as exact rationals (`Rat`), so `int(x)` on a nonnegative float is
embedded as the floor.  Python strings are `String`, compared and lowercased
character-wise (an exact model for the ASCII data handled here).
-/

namespace ResumeOptimizer

/-- Char-level word test for the regex class `\w` (ASCII fragment:
letters, digits, underscore). -/
def isWordChar (c : Char) : Bool := c.isAlphanum || c = '_'

/-- Helper for the Python substring operator: `listStartsWith needle hay` is
true when `needle` is a prefix of `hay`. -/
def listStartsWith : List Char → List Char → Bool
  | [], _ => true
  | _ :: _, [] => false
  | a :: as, b :: bs => a = b && listStartsWith as bs

/-- Embeds the Python operator `needle in hay` on character lists:
`listContainsSub needle hay` is true when `needle` occurs as a contiguous
substring of `hay`. -/
def listContainsSub (needle : List Char) : List Char → Bool
  | [] => listStartsWith needle []
  | c :: rest => listStartsWith needle (c :: rest) || listContainsSub needle rest

/-- Python `needle in hay` on strings. -/
def strContainsSub (hay needle : String) : Bool :=
  listContainsSub needle.data hay.data

/-- Python `s.lower()`, embedded character-wise (exact on ASCII, which is
all the keyword dictionaries contain). -/
def str_lower (s : String) : String := String.mk (s.data.map Char.toLower)

/-- Python `s.strip()`: remove leading and trailing whitespace. -/
def str_trim (s : String) : String :=
  String.mk (((s.data.dropWhile Char.isWhitespace).reverse.dropWhile
    Char.isWhitespace).reverse)

/-- The quantification keyword list of `ResumeOptimizer._has_quantification`
(src/resume_optimizer.py line 376).  The keywords are the Chinese terms for
increase, improve, grow, reduce, save, optimize. -/
def quantification_keywords : List String :=
  ["提升", "提高", "增长", "减少", "节省", "优化"]

/-- Embeds `ResumeOptimizer._has_quantification` (src/resume_optimizer.py
lines 368-377).  The source first runs `re.search` with the pattern
`\d+%|\d+\w*|\d+\.\d+`; since the alternative `\d+\w*` already matches any
single decimal digit, that search succeeds exactly when the text contains a
decimal digit.  Otherwise the source tests the Chinese quantification
keywords by substring containment. -/
def has_quantification (text : String) : Bool :=
  text.data.any Char.isDigit ||
    quantification_keywords.any (fun kw => strContainsSub text kw)

/-- One work-experience entry as read by the optimizer
(`resume_data["work_experience"]` items). -/
structure WorkExperience where
  company : String
  position : String
  responsibilities : List String
  achievements : List String
deriving DecidableEq, Repr

/-- One project entry as read by the optimizer (`resume_data["projects"]`
items). -/
structure ProjectExp where
  technologies : List String
  achievements : List String
deriving DecidableEq, Repr

/-- The contact fields of `resume_data["personal_info"]` read by
`_calculate_format_score`.  A missing field of the Python dict and a field
holding the empty string are both falsy, so both are embedded as `""`. -/
structure PersonalInfo where
  email : String
  phone : String
deriving DecidableEq, Repr

/-- The slice of `resume_data` read by the optimizer.  `personal_info = none`
embeds a missing or empty (falsy) `personal_info` dict; `education` records
only the number of education entries, which is all the optimizer reads. -/
structure ResumeData where
  personal_info : Option PersonalInfo
  work_experience : List WorkExperience
  education : Nat
  skills : List String
  projects : List ProjectExp
deriving DecidableEq, Repr

/-- Embeds `ResumeOptimizer._calculate_format_score` (src/resume_optimizer.py
lines 301-318): start at 100, deduct 20 for each missing required section
(personal info, work experience, education), 15 for a missing email and 10
for a missing phone; clamp at 0. -/
def calculate_format_score (r : ResumeData) : Nat :=
  let score : Int := 100
  let score := if r.personal_info.isNone then score - 20 else score
  let score := if r.work_experience.isEmpty then score - 20 else score
  let score := if r.education = 0 then score - 20 else score
  let pi := r.personal_info.getD { email := "", phone := "" }
  let score := if pi.email = "" then score - 15 else score
  let score := if pi.phone = "" then score - 10 else score
  (max 0 score).toNat

/-- Embeds `ResumeOptimizer._calculate_structure_score`
(src/resume_optimizer.py lines 320-341): start at 100; deduct 30 when there
is no work experience, else 10 per entry missing a company, 10 per entry
missing a position and 15 per entry with neither responsibilities nor
achievements; deduct 20 when the skills list is empty; clamp at 0. -/
def calculate_structure_score (r : ResumeData) : Nat :=
  let score : Int := 100
  let score :=
    if r.work_experience.isEmpty then score - 30
    else r.work_experience.foldl (fun sc w =>
      let sc := if w.company = "" then sc - 10 else sc
      let sc := if w.position = "" then sc - 10 else sc
      if w.responsibilities.isEmpty && w.achievements.isEmpty then sc - 15
      else sc) score
  let score := if r.skills.isEmpty then score - 20 else score
  (max 0 score).toNat

/-- The achievement strings scanned by
`ResumeOptimizer._calculate_quantification_score`: the achievements of every
work entry followed by the achievements of every project entry. -/
def all_achievements (r : ResumeData) : List String :=
  (r.work_experience.map (fun w => w.achievements)).flatten ++
    (r.projects.map (fun p => p.achievements)).flatten

/-- Embeds `ResumeOptimizer._calculate_quantification_score`
(src/resume_optimizer.py lines 343-366): the fraction of achievement strings
with quantification, scaled to 0-100 and truncated to an integer (`int()` on
the nonnegative float is embedded as floor, i.e. Nat division). -/
def calculate_quantification_score (r : ResumeData) : Nat :=
  let achievements := all_achievements r
  let total := achievements.length
  let quantified := (achievements.filter (fun a => has_quantification a)).length
  if total > 0 then quantified * 100 / total else 0

/-- Embeds the overall score computation of
`ResumeOptimizer.calculate_ats_score` (src/resume_optimizer.py lines
279-280): `int(keyword*0.4 + format*0.2 + structure*0.2 + quant*0.2)`.
The float literals 0.4 and 0.2 are the exact rationals 2/5 and 1/5, and
`int()` of the nonnegative sum is its floor, which equals this natural
division (`overall_score_eq_floor` proves the equality with the rational
formula).  Python evaluates the same expression in binary64, which agrees
except at isolated inputs where the float sum lands just below an exact
integer. -/
def overall_score (keyword_score format_score structure_score quantification_score : Nat) : Nat :=
  (4 * keyword_score + 2 * format_score + 2 * structure_score +
    2 * quantification_score) / 10

/-- Outcome of the language-model round-trip of
`ResumeOptimizer._extract_jd_keywords` (src/resume_optimizer.py lines
137-179).  The call samples a completion (temperature 0.1) and parses it as
JSON; any API or parse failure is caught inside the method. -/
inductive JdKeywordsOutcome where
  | parsed (categories : List (String × List String))
  | failure
deriving DecidableEq

/-- The fallback returned by `_extract_jd_keywords` on any exception
(src/resume_optimizer.py line 179). -/
def default_jd_keywords : List (String × List String) :=
  [("technical", []), ("soft", []), ("industry", [])]

/-- Embeds `ResumeOptimizer._extract_jd_keywords` as a function of the
model-call outcome. -/
def extract_jd_keywords : JdKeywordsOutcome → List (String × List String)
  | .parsed categories => categories
  | .failure => default_jd_keywords

/-- Embeds `ResumeOptimizer._extract_resume_keywords`
(src/resume_optimizer.py lines 181-199): collect skills, work
responsibilities and achievements, project technologies and achievements;
keep the non-blank ones lowercased and stripped, deduplicated (the source
uses `list(set(...))`; the embedding keeps first occurrences). -/
def extract_resume_keywords (r : ResumeData) : List String :=
  let keywords := r.skills
    ++ (r.work_experience.map (fun w => w.responsibilities ++ w.achievements)).flatten
    ++ (r.projects.map (fun p => p.technologies ++ p.achievements)).flatten
  ((keywords.filter (fun kw => str_trim kw ≠ "")).map
    (fun kw => str_trim (str_lower kw))).dedup

/-- The lowercased job-description keywords gathered across all categories
by `ResumeOptimizer._calculate_match_score` (src/resume_optimizer.py lines
204-206). -/
def all_jd_keywords (jd_keywords : List (String × List String)) : List String :=
  (jd_keywords.map (fun c => c.2.map str_lower)).flatten

/-- The number of job-description keywords matching some resume keyword by
substring containment in either direction (src/resume_optimizer.py lines
211-216). -/
def matched_jd_count (resume_keywords : List String)
    (jd_keywords : List (String × List String)) : Nat :=
  ((all_jd_keywords jd_keywords).filter (fun jd_kw =>
    resume_keywords.any (fun resume_kw =>
      strContainsSub resume_kw jd_kw || strContainsSub jd_kw resume_kw))).length

/-- Embeds `ResumeOptimizer._calculate_match_score` (src/resume_optimizer.py
lines 201-218): the fraction of lowercased job-description keywords that
match some resume keyword, scaled to 0-100; zero when the job description
yields no keywords. -/
def calculate_match_score (resume_keywords : List String)
    (jd_keywords : List (String × List String)) : ℚ :=
  if (all_jd_keywords jd_keywords).isEmpty then 0
  else
    (matched_jd_count resume_keywords jd_keywords : ℚ) /
      ((all_jd_keywords jd_keywords).length : ℚ) * 100

/-- The integer keyword score `int(keyword_analysis.match_score)`
(src/resume_optimizer.py line 267), written with natural division;
`int_match_score_eq_floor` proves it equal to the floor of the rational
match score. -/
def int_match_score (resume_keywords : List String)
    (jd_keywords : List (String × List String)) : Nat :=
  if (all_jd_keywords jd_keywords).isEmpty then 0
  else
    matched_jd_count resume_keywords jd_keywords * 100 /
      (all_jd_keywords jd_keywords).length

/-- Embeds `ResumeOptimizer._generate_ats_feedback` (src/resume_optimizer.py
lines 379-402): threshold checks on each sub-score append a paired issue and
improvement message. -/
def generate_ats_feedback (keyword_score format_score structure_score quantification_score : Nat) :
    List String × List String :=
  let p1 := if keyword_score < 70 then
      (["关键词匹配度较低 (" ++ toString keyword_score ++ "%)"],
        ["增加与目标职位相关的技能关键词"])
    else ([], [])
  let p2 := if format_score < 80 then
      (["简历格式需要改进 (" ++ toString format_score ++ "%)"],
        ["完善个人信息，确保联系方式完整"])
    else ([], [])
  let p3 := if structure_score < 80 then
      (["简历结构不够完整 (" ++ toString structure_score ++ "%)"],
        ["补充缺失的工作经验或项目描述"])
    else ([], [])
  let p4 := if quantification_score < 60 then
      (["缺乏量化数据 (" ++ toString quantification_score ++ "%)"],
        ["在成就描述中添加具体的数字和百分比"])
    else ([], [])
  (p1.1 ++ p2.1 ++ p3.1 ++ p4.1, p1.2 ++ p2.2 ++ p3.2 ++ p4.2)

/-- The `ATSScore` dataclass (src/resume_optimizer.py lines 28-37). -/
structure ATSScore where
  overall_score : Nat
  keyword_score : Nat
  format_score : Nat
  structure_score : Nat
  quantification_score : Nat
  issues : List String
  improvements : List String
deriving DecidableEq, Repr

/-- Embeds `ResumeOptimizer.calculate_ats_score` (src/resume_optimizer.py
lines 261-299) as a function of the resume data and of the outcome of the
job-description keyword model call (the only model output the score reads:
the recommendation round-trip of `analyze_resume_vs_jd` does not flow into
the `ATSScore`).  `int(match_score)` is embedded as `int_match_score`, the
floor of the exact rational match score. -/
def calculate_ats_score (r : ResumeData) (o : JdKeywordsOutcome) : ATSScore :=
  let keyword_score := int_match_score (extract_resume_keywords r) (extract_jd_keywords o)
  let format_score := calculate_format_score r
  let structure_score := calculate_structure_score r
  let quantification_score := calculate_quantification_score r
  let overall := overall_score keyword_score format_score structure_score quantification_score
  let feedback := generate_ats_feedback keyword_score format_score structure_score quantification_score
  { overall_score := overall, keyword_score := keyword_score, format_score := format_score,
    structure_score := structure_score, quantification_score := quantification_score,
    issues := feedback.1, improvements := feedback.2 }

end ResumeOptimizer

namespace TemplatesVM

/-! Embedding of the `ResumeVersionManager` class of src/resume_optimizer.py
(lines 552-946), which persists to data/templates.db.  A store is the
contents of its two tables; each SQL transaction becomes one pure function
on the store, so commit atomicity (in particular the clear-then-set of
`set_active_version`, lines 724-748, which runs both UPDATE statements in a
single transaction) is atomicity of the function application.
-/

/-- A row of the `resume_versions` table of templates.db.  `fields` stands
for the updatable payload columns (name, target_company, target_position,
description, resume_data, ats_score_data); `user_id` is the nullable owner
column added by database_migration.py. -/
structure VersionRow where
  version_id : String
  fields : String
  user_id : Option String
  is_active : Bool
deriving DecidableEq, Repr

/-- A row of the `version_comparisons` cache table of templates.db.
`created_time` is the creation timestamp in seconds (the source stores an
ISO-format string, whose ordering is chronological). -/
structure ComparisonRow where
  id : String
  version1_id : String
  version2_id : String
  comparison_result : String
  created_time : Nat
deriving DecidableEq, Repr

/-- The contents of templates.db seen by the version manager. -/
structure Store where
  versions : List VersionRow
  comparisons : List ComparisonRow
deriving DecidableEq, Repr

/-- Embeds `ResumeVersionManager.create_version` (src/resume_optimizer.py
lines 595-637): INSERT a new row with `is_active = FALSE`; the generated
`version_id` and the request-bound `user_id` are parameters. -/
def create_version (vid : String) (payload : String) (uid : Option String)
    (st : Store) : Store :=
  { st with versions := st.versions ++
      [{ version_id := vid, fields := payload, user_id := uid, is_active := false }] }

/-- Embeds `ResumeVersionManager.set_active_version` (src/resume_optimizer.py
lines 724-748): one transaction that first sets `is_active = FALSE` on every
row, then `is_active = TRUE` on the row with the given id. -/
def set_active_version (vid : String) (st : Store) : Store :=
  let cleared := st.versions.map (fun r => { r with is_active := false })
  let activated := cleared.map (fun r =>
    if r.version_id = vid then { r with is_active := true } else r)
  { st with versions := activated }

/-- Embeds `ResumeVersionManager.update_version` (src/resume_optimizer.py
lines 782-826): update payload columns of the matching row; the allowed
column set never includes `is_active`. -/
def update_version (vid : String) (payload : String) (st : Store) : Store :=
  { st with versions := st.versions.map (fun r =>
      if r.version_id = vid then { r with fields := payload } else r) }

/-- Embeds `ResumeVersionManager.delete_version` (src/resume_optimizer.py
lines 750-780): DELETE the comparison-cache rows referencing the id as
either endpoint, DELETE the version row, and commit only when the version
DELETE touched a row (`cursor.rowcount > 0`); otherwise the connection
closes without commit, rolling both deletes back, and False is returned. -/
def delete_version (vid : String) (st : Store) : Bool × Store :=
  let comparisons := st.comparisons.filter
    (fun c => !(c.version1_id = vid || c.version2_id = vid))
  let versions := st.versions.filter (fun r => !(r.version_id = vid))
  if st.versions.any (fun r => r.version_id = vid) then
    (true, { versions := versions, comparisons := comparisons })
  else (false, st)

/-- Embeds `ResumeVersionManager.cache_comparison` (src/resume_optimizer.py
lines 863-892): INSERT a cache row with the current timestamp. -/
def cache_comparison (cid : String) (v1 v2 : String) (result : String)
    (now : Nat) (st : Store) : Store :=
  { st with comparisons := st.comparisons ++
      [{ id := cid, version1_id := v1, version2_id := v2,
          comparison_result := result, created_time := now }] }

/-- The row selected by `ORDER BY created_time DESC LIMIT 1`: a newest row
of the list (on equal timestamps SQLite may return either; the embedding
keeps the earliest such row). -/
def pick_newest : List ComparisonRow → Option ComparisonRow
  | [] => none
  | c :: rest =>
    match pick_newest rest with
    | none => some c
    | some d => if d.created_time > c.created_time then some d else some c

/-- The symmetric cache-row predicate of `get_cached_comparison`
(src/resume_optimizer.py lines 901-908). -/
def matches_pair (v1 v2 : String) (c : ComparisonRow) : Bool :=
  (c.version1_id = v1 && c.version2_id = v2) ||
    (c.version1_id = v2 && c.version2_id = v1)

/-- Embeds `ResumeVersionManager.get_cached_comparison`
(src/resume_optimizer.py lines 894-923): select the newest row matching
(v1,v2) or (v2,v1); return its result only when it is younger than 24
hours, else None. -/
def get_cached_comparison (now : Nat) (v1 v2 : String) (st : Store) :
    Option String :=
  match pick_newest (st.comparisons.filter (matches_pair v1 v2)) with
  | some row =>
    if now - row.created_time < 24 * 3600 then some row.comparison_result
    else none
  | none => none

/-- Modelled from the spec: the compare(A,B) orchestration (cache lookup,
recompute, cache store) lives in the web layer
(interview_assistant_system.py), which is not under src/; src/ contains
only `get_cached_comparison` and `cache_comparison`.  Per the spec,
compare returns a cached comparison if one exists and is younger than 24
hours, otherwise computes the comparison, caches it and returns it. -/
def compare_cached (compute : String → String → String) (cid : String)
    (now : Nat) (v1 v2 : String) (st : Store) : String × Store :=
  match get_cached_comparison now v1 v2 st with
  | some result => (result, st)
  | none => (compute v1 v2, cache_comparison cid v1 v2 (compute v1 v2) now st)

/-- The number of rows carrying the active flag. -/
def active_count (st : Store) : Nat :=
  (st.versions.filter (fun r => r.is_active)).length

/-- The number of active rows within one ownership scope (owner id). -/
def scope_active_count (uid : Option String) (st : Store) : Nat :=
  (st.versions.filter (fun r => r.is_active && r.user_id == uid)).length

end TemplatesVM

namespace Rvm

/-! Embedding of the `ResumeVersionManager` class of
src/resume_version_manager.py, which persists to data/resume_versions.db.
In this store `is_active` is a liveness (soft-delete) flag: rows are
created with it set and `delete_version` merely clears it.
-/

/-- A row of the `resume_versions` table of resume_versions.db, restricted
to the columns relevant to the active flag; `content` stands for the
remaining payload columns. -/
structure RVersionRow where
  id : String
  content : String
  is_active : Bool
deriving DecidableEq, Repr

/-- Embeds `ResumeVersionManager._save_version`
(src/resume_version_manager.py lines 152-180): INSERT OR REPLACE by
primary key. -/
def save_version (v : RVersionRow) (s : List RVersionRow) : List RVersionRow :=
  if s.any (fun r => r.id = v.id) then s.map (fun r => if r.id = v.id then v else r)
  else s ++ [v]

/-- Embeds `ResumeVersionManager.create_version`
(src/resume_version_manager.py lines 114-150): build a version with
`is_active = True` (line 144) and save it.  The md5-derived id is a
parameter. -/
def create_version (vid : String) (content : String) (s : List RVersionRow) :
    List RVersionRow :=
  save_version { id := vid, content := content, is_active := true } s

/-- The number of rows of resume_versions.db carrying the active flag. -/
def active_flag_count (s : List RVersionRow) : Nat :=
  (s.filter (fun r => r.is_active)).length

end Rvm

namespace Parser

/-! Embedding of src/enhanced_resume_parser.py.  Regular-expression matching of
literal keywords with `\b` word boundaries is embedded character-wise: a
keyword matches at a position when the lowered keyword equals the lowered
text there and both ends sit on a word/non-word transition.  `\w` is its
ASCII fragment and lowering is per-character (exact for the ASCII keyword
dictionaries of the source).
-/

/-- If the first list is a prefix of the second, the remaining suffix. -/
def kw_consume : List Char → List Char → Option (List Char)
  | [], s => some s
  | _ :: _, [] => none
  | k :: ks, c :: cs => if k = c then kw_consume ks cs else none

/-- Word-character test of an optional character; the ends of the text
count as non-word, as for the regex `\b`. -/
def isWordOpt : Option Char → Bool
  | some c => ResumeOptimizer.isWordChar c
  | none => false

/-- The lowered keyword matches at the current position of the lowered
text: a word boundary sits before it (`prev` is the character before the
position), the keyword is a prefix of the remaining text, and a word
boundary follows the match. -/
def matches_here (kw : List Char) (prev : Option Char) (suffix : List Char) : Bool :=
  (isWordOpt prev != isWordOpt suffix.head?) &&
    (match kw_consume kw suffix with
      | some rest => isWordOpt kw.getLast? != isWordOpt rest.head?
      | none => false)

/-- Scan the lowered text left to right for the first boundary match of the
lowered keyword, returning its index. -/
def scan_match (kw : List Char) : Option Char → List Char → Nat → Option Nat
  | prev, [], i => if matches_here kw prev [] then some i else none
  | prev, c :: rest, i =>
    if matches_here kw prev (c :: rest) then some i
    else scan_match kw (some c) rest (i + 1)

/-- Embeds the keyword search of `_extract_skills_with_regex`
(src/enhanced_resume_parser.py lines 710-724):
`re.search(r"\b" + re.escape(keyword.lower()) + r"\b", text_lower)`, as the
index of its first match.  The same index is found by the IGNORECASE search
of `_find_original_case` over the original text, since a caseless match on
the original text is an exact match on the lowered text. -/
def find_match_index (text kw : String) : Option Nat :=
  scan_match (ResumeOptimizer.str_lower kw).data none
    (ResumeOptimizer.str_lower text).data 0

/-- The substring of `text` of length `len` starting at character `i`. -/
def slice_at (text : String) (i len : Nat) : String :=
  String.mk ((text.data.drop i).take len)

/-- Python `s.title()` (ASCII): uppercase each letter that follows a
non-letter, lowercase the other letters. -/
def titlecase_chars : List Char → Bool → List Char
  | [], _ => []
  | c :: rest, prevCased =>
    (if c.isAlpha then (if prevCased then c.toLower else c.toUpper) else c) ::
      titlecase_chars rest c.isAlpha

/-- Python `s.title()`. -/
def str_title (s : String) : String := String.mk (titlecase_chars s.data false)

/-- Embeds `EnhancedResumeParser._find_original_case`
(src/enhanced_resume_parser.py lines 728-734): search the original text
case-insensitively with word boundaries and return the matched slice in its
original casing; fall back to `keyword.title()` when nothing matches. -/
def find_original_case (text kw : String) : String :=
  match find_match_index text kw with
  | some i => slice_at text i kw.data.length
  | none => str_title kw

/-- One category loop of `EnhancedResumeParser._extract_skills_with_regex`
(src/enhanced_resume_parser.py lines 710-724): for each keyword, when it
matches in the lowered text, append its original-case occurrence unless it
is falsy or already collected. -/
def extract_category (text : String) (keywords : List String) : List String :=
  keywords.foldl (fun acc kw =>
    if (find_match_index text kw).isSome then
      let orig := find_original_case text kw
      if orig ≠ "" ∧ orig ∉ acc then acc ++ [orig] else acc
    else acc) []

end Parser

namespace Rvm

/-- Python dict keys, for a dict embedded as an association list with
distinct keys. -/
def dict_keys {V : Type} (d : List (String × V)) : List String := d.map Prod.fst

/-- Python `d.get(k)`: None when the key is absent. -/
def dict_get {V : Type} (d : List (String × V)) (k : String) : Option V :=
  (d.find? (fun p => p.fst == k)).map Prod.snd

/-- Embeds `ResumeVersionManager._calculate_similarity`
(src/resume_version_manager.py lines 332-346): over the union of the two
key sets (`set(content1.keys()) | set(content2.keys())`), the fraction of
keys on which the two contents agree (`content1.get(key) ==
content2.get(key)`), or 0.0 when there are no keys.  Content values are a
type parameter with decidable equality. -/
def calculate_similarity {V : Type} [DecidableEq V]
    (content1 content2 : List (String × V)) : ℚ :=
  let all_keys := (dict_keys content1).toFinset ∪ (dict_keys content2).toFinset
  let total_fields := all_keys.card
  let same_fields :=
    (all_keys.filter (fun k => dict_get content1 k = dict_get content2 k)).card
  if total_fields > 0 then (same_fields : ℚ) / (total_fields : ℚ) else 0

end Rvm

namespace Parser

/-- The list `tech_keywords["programming_languages"]`
(src/enhanced_resume_parser.py lines 154-158). -/
def programming_languages_keywords : List String :=
  ["python", "java", "javascript", "typescript", "c++", "c#", "c", "go", "rust",
    "php", "ruby", "swift", "kotlin", "scala", "r", "matlab", "sql", "html",
    "css", "sass", "less", "shell", "bash", "powershell", "perl", "dart", "lua"]

/-- The list `tech_keywords["frameworks_libraries"]` (lines 159-164). -/
def frameworks_libraries_keywords : List String :=
  ["react", "vue", "angular", "django", "flask", "fastapi", "spring", "nodejs",
    "express", "nextjs", "nuxtjs", "laravel", "rails", "asp.net", "tensorflow",
    "pytorch", "keras", "scikit-learn", "pandas", "numpy", "opencv", "jquery",
    "bootstrap", "tailwind", "material-ui", "ant-design", "element-ui"]

/-- The list `tech_keywords["databases"]` (lines 165-169). -/
def databases_keywords : List String :=
  ["mysql", "postgresql", "mongodb", "redis", "elasticsearch", "oracle",
    "sqlite", "cassandra", "dynamodb", "neo4j", "influxdb", "mariadb",
    "couchdb", "firebase", "supabase"]

/-- The list `tech_keywords["cloud_platforms"]` (lines 170-173). -/
def cloud_platforms_keywords : List String :=
  ["aws", "azure", "gcp", "google cloud", "alibaba cloud", "tencent cloud",
    "heroku", "vercel", "netlify", "digitalocean", "linode", "vultr"]

/-- The list `tech_keywords["tools_software"]` (lines 174-179). -/
def tools_software_keywords : List String :=
  ["docker", "kubernetes", "git", "github", "gitlab", "jenkins", "gitlab-ci",
    "github-actions", "ansible", "terraform", "vagrant", "jira", "confluence",
    "slack", "notion", "figma", "sketch", "photoshop", "illustrator", "xd",
    "postman", "insomnia", "swagger", "linux", "ubuntu", "centos", "windows"]

/-- The list `tech_keywords["methodologies"]` (lines 180-184). -/
def methodologies_keywords : List String :=
  ["agile", "scrum", "kanban", "devops", "ci/cd", "tdd", "bdd", "microservices",
    "restful", "graphql", "api", "mvc", "mvvm", "solid", "design patterns",
    "clean architecture", "domain-driven design"]

/-- The list `soft_skills_keywords` (src/enhanced_resume_parser.py lines
188-193). -/
def soft_skills_keywords : List String :=
  ["leadership", "teamwork", "communication", "problem solving",
    "critical thinking", "project management", "time management",
    "adaptability", "creativity", "innovation", "analytical thinking",
    "decision making", "negotiation", "presentation", "mentoring",
    "collaboration", "cross-functional", "stakeholder management",
    "customer service"]

/-- The `technical_skills` taxonomy of the extraction result (the
`TechnicalSkills` dataclass, src/enhanced_resume_parser.py lines 78-93). -/
structure TechSkills where
  programming_languages : List String
  frameworks_libraries : List String
  databases : List String
  cloud_platforms : List String
  tools_software : List String
  methodologies : List String
  soft_skills : List String
deriving DecidableEq, Repr

/-- Embeds `EnhancedResumeParser._extract_skills_with_regex`
(src/enhanced_resume_parser.py lines 696-726): per category, collect the
original-case occurrences of its matching keywords; the soft-skill loop
(lines 719-724) fills the seventh field with the same logic. -/
def extract_skills_with_regex (text : String) : TechSkills :=
  { programming_languages := extract_category text programming_languages_keywords,
    frameworks_libraries := extract_category text frameworks_libraries_keywords,
    databases := extract_category text databases_keywords,
    cloud_platforms := extract_category text cloud_platforms_keywords,
    tools_software := extract_category text tools_software_keywords,
    methodologies := extract_category text methodologies_keywords,
    soft_skills := extract_category text soft_skills_keywords }

/-- The `personal_info` block of the extraction result (the
`EnhancedPersonalInfo` dataclass, lines 29-39). -/
structure PersonalInfoP where
  full_name : String
  email : String
  phone : String
  location : String
  linkedin : String
  github : String
  portfolio : String
  years_of_experience : String
deriving DecidableEq, Repr

/-- The extraction result read by the rest of the pipeline.  The
work-experience, education and project lists enter the claims only through
their lengths (the confidence computation), so they are embedded as
counts. -/
structure ExtractedData where
  personal_info : PersonalInfoP
  technical_skills : TechSkills
  work_experience : Nat
  education : Nat
  projects : Nat
  certifications : List String
  notable_achievements : List String
  languages : List String
deriving DecidableEq, Repr

/-- Embeds `EnhancedResumeParser._create_fallback_structure`
(src/enhanced_resume_parser.py lines 825-853): every scalar empty, every
list empty. -/
def fallback_structure : ExtractedData :=
  { personal_info :=
      { full_name := "", email := "", phone := "", location := "",
        linkedin := "", github := "", portfolio := "", years_of_experience := "" },
    technical_skills :=
      { programming_languages := [], frameworks_libraries := [], databases := [],
        cloud_platforms := [], tools_software := [], methodologies := [],
        soft_skills := [] },
    work_experience := 0, education := 0, projects := 0,
    certifications := [], notable_achievements := [], languages := [] }

/-- Outcome of the model round-trip of
`_extract_with_enhanced_openai` (src/enhanced_resume_parser.py lines
496-523): a response whose YAML parses to a well-formed structure, a
response that fails YAML parsing (truncated JSON, non-YAML text), or an
API failure (timeout, rate limit). -/
inductive LLMExtractOutcome where
  | parsed (d : ExtractedData)
  | yaml_error
  | api_failure
deriving DecidableEq

/-- Embeds `EnhancedResumeParser._extract_with_enhanced_openai`: both the
`yaml.YAMLError` handler (line 516) and the generic exception handler
(line 521) return the canonical fallback structure instead of raising. -/
def extract_with_enhanced_openai : LLMExtractOutcome → ExtractedData
  | LLMExtractOutcome.parsed d => d
  | LLMExtractOutcome.yaml_error => fallback_structure
  | LLMExtractOutcome.api_failure => fallback_structure

/-- One category of `_merge_and_validate_results`
(src/enhanced_resume_parser.py lines 736-752): append the regex skills
whose lowercase form is not already present (the existing set is computed
once, before the loop). -/
def merge_category (ai regex : List String) : List String :=
  let existing := ai.map ResumeOptimizer.str_lower
  ai ++ regex.filter (fun sk => ResumeOptimizer.str_lower sk ∉ existing)

/-- Embeds `EnhancedResumeParser._merge_and_validate_results`: the model
output wins; regex skills are appended per category after case-insensitive
deduplication. -/
def merge_and_validate_results (ai : ExtractedData) (regex : TechSkills) :
    ExtractedData :=
  { ai with technical_skills :=
      { programming_languages :=
          merge_category ai.technical_skills.programming_languages
            regex.programming_languages,
        frameworks_libraries :=
          merge_category ai.technical_skills.frameworks_libraries
            regex.frameworks_libraries,
        databases := merge_category ai.technical_skills.databases regex.databases,
        cloud_platforms :=
          merge_category ai.technical_skills.cloud_platforms regex.cloud_platforms,
        tools_software :=
          merge_category ai.technical_skills.tools_software regex.tools_software,
        methodologies :=
          merge_category ai.technical_skills.methodologies regex.methodologies,
        soft_skills :=
          merge_category ai.technical_skills.soft_skills regex.soft_skills } }

/-- The sum `sum(len(skills) for skills in tech_skills.values())` of
`_calculate_parsing_confidence`. -/
def total_skills (ts : TechSkills) : Nat :=
  ts.programming_languages.length + ts.frameworks_libraries.length +
    ts.databases.length + ts.cloud_platforms.length + ts.tools_software.length +
    ts.methodologies.length + ts.soft_skills.length

/-- The integer point total accumulated by
`EnhancedResumeParser._calculate_parsing_confidence`
(src/enhanced_resume_parser.py lines 754-788): 10 points per present
contact field, min(30, 2 per skill), min(25, 8 per work entry),
min(15, 7 per education entry), 10 for more than 200 characters of text. -/
def confidence_points (d : ExtractedData) (text : String) : Nat :=
  (if d.personal_info.full_name ≠ "" then 10 else 0) +
    (if d.personal_info.email ≠ "" then 10 else 0) +
    (if d.personal_info.phone ≠ "" then 10 else 0) +
    (if total_skills d.technical_skills > 0 then
      min 30 (total_skills d.technical_skills * 2) else 0) +
    (if d.work_experience > 0 then min 25 (d.work_experience * 8) else 0) +
    (if d.education > 0 then min 15 (d.education * 7) else 0) +
    (if (ResumeOptimizer.str_trim text).length > 200 then 10 else 0)

/-- The value `min(confidence_score / max_score, 1.0)` (line 788). -/
def calculate_parsing_confidence (d : ExtractedData) (text : String) : ℚ :=
  min ((confidence_points d text : ℚ) / 100) 1

/-- The `EnhancedResume` record (src/enhanced_resume_parser.py lines
114-140), with the list-valued experience fields as counts as in
`ExtractedData`. -/
structure EnhancedResumeL where
  personal_info : PersonalInfoP
  technical_skills : TechSkills
  work_experience : Nat
  education : Nat
  projects : Nat
  certifications : List String
  notable_achievements : List String
  languages : List String
  raw_text : String
  parsing_confidence : ℚ
deriving DecidableEq, Repr

/-- Embeds `EnhancedResumeParser._build_enhanced_resume` on well-typed
data (lines 790-819). -/
def build_enhanced_resume (d : ExtractedData) (raw_text : String)
    (confidence : ℚ) : EnhancedResumeL :=
  { personal_info := d.personal_info, technical_skills := d.technical_skills,
    work_experience := d.work_experience, education := d.education,
    projects := d.projects, certifications := d.certifications,
    notable_achievements := d.notable_achievements, languages := d.languages,
    raw_text := raw_text, parsing_confidence := confidence }

/-- Embeds the pipeline of `EnhancedResumeParser.parse_resume`
(src/enhanced_resume_parser.py lines 206-224) from the preprocessed text
on: model extraction (with fallback), regex skill extraction, merge,
confidence, record construction.  The function is total: no branch
raises. -/
def parse_resume (cleaned_text : String) (o : LLMExtractOutcome) :
    EnhancedResumeL :=
  let structured_data := extract_with_enhanced_openai o
  let regex_skills := extract_skills_with_regex cleaned_text
  let final_data := merge_and_validate_results structured_data regex_skills
  let confidence := calculate_parsing_confidence final_data cleaned_text
  build_enhanced_resume final_data cleaned_text confidence

end Parser

namespace Parser

/-- A Python call result: a returned value or a raised exception. -/
inductive PyResult (α : Type) where
  | ok (val : α)
  | exn (msg : String)
deriving DecidableEq, Repr

/-- The environment of one `_extract_text_enhanced` call: whether the path
exists, and the outcome each format-specific extractor would produce
(`_extract_from_pdf_enhanced`, `_extract_from_docx_enhanced`, the direct
text read). -/
structure FileOutcomes where
  file_present : Bool
  pdf_result : PyResult String
  docx_result : PyResult String
  txt_result : PyResult String
deriving DecidableEq, Repr

/-- Python `s.split(".")` on the character list. -/
def split_dot : List Char → List (List Char)
  | [] => [[]]
  | c :: rest =>
    let r := split_dot rest
    if c = '.' then [] :: r
    else
      match r with
      | [] => [[c]]
      | h :: t => (c :: h) :: t

/-- Python `file_path.lower().split(".")[-1]`
(src/enhanced_resume_parser.py line 236). -/
def file_extension (path : String) : String :=
  String.mk ((split_dot (ResumeOptimizer.str_lower path).data).getLastD [])

/-- The body of the `try` block of `_extract_text_enhanced`
(src/enhanced_resume_parser.py lines 232-246): existence check, dispatch on
the extension, `raise ValueError` on an unsupported extension. -/
def extract_text_inner (fs : FileOutcomes) (path : String) : PyResult String :=
  if !fs.file_present then PyResult.exn ("文件不存在: " ++ path)
  else
    let ext := file_extension path
    if ext = "pdf" then fs.pdf_result
    else if ext = "docx" || ext = "doc" then fs.docx_result
    else if ext = "txt" then fs.txt_result
    else PyResult.exn ("不支持的文件格式: " ++ ext)

/-- Embeds `EnhancedResumeParser._extract_text_enhanced`
(src/enhanced_resume_parser.py lines 230-250): the whole body sits in a
try/except whose handler logs the error and returns the empty string, so
the caller always receives a normally returned string. -/
def extract_text_enhanced (fs : FileOutcomes) (path : String) : PyResult String :=
  match extract_text_inner fs path with
  | PyResult.ok text => PyResult.ok text
  | PyResult.exn _ => PyResult.ok ""

end Parser

namespace ResumeOptimizer

theorem overall_score_eq_floor (k f s q : Nat) :
    overall_score k f s q =
      (⌊(k : ℚ) * 0.4 + (f : ℚ) * 0.2 + (s : ℚ) * 0.2 + (q : ℚ) * 0.2⌋).toNat := by
  have h : (k : ℚ) * 0.4 + (f : ℚ) * 0.2 + (s : ℚ) * 0.2 + (q : ℚ) * 0.2 =
      ((4 * k + 2 * f + 2 * s + 2 * q : ℕ) : ℚ) / ((10 : ℕ) : ℚ) := by
    push_cast
    ring
  rw [overall_score, h, Rat.floor_natCast_div_natCast]
  omega

end ResumeOptimizer

/-- Claim C3 (corrected): the overall ATS score is the weighted sum of the
four sub-scores (keyword 0.4, format 0.2, structure 0.2, quantification 0.2)
truncated toward zero (floor), not rounded to the nearest integer, and it
lies in [0, 100] whenever the four sub-scores lie in [0, 100]. -/
theorem C3_theorem (k f s q : Nat) (hk : k ≤ 100) (hf : f ≤ 100)
    (hs : s ≤ 100) (hq : q ≤ 100) :
    ResumeOptimizer.overall_score k f s q =
      (⌊(k : ℚ) * 0.4 + (f : ℚ) * 0.2 + (s : ℚ) * 0.2 + (q : ℚ) * 0.2⌋).toNat ∧
    ResumeOptimizer.overall_score k f s q = (4 * k + 2 * f + 2 * s + 2 * q) / 10 ∧
    ResumeOptimizer.overall_score k f s q ≤ 100 := by
  refine ⟨ResumeOptimizer.overall_score_eq_floor k f s q, rfl, ?_⟩
  rw [ResumeOptimizer.overall_score]
  have h : 4 * k + 2 * f + 2 * s + 2 * q ≤ 1000 := by omega
  calc (4 * k + 2 * f + 2 * s + 2 * q) / 10 ≤ 1000 / 10 := Nat.div_le_div_right h
    _ = 100 := by norm_num

/-- Witness for C3_theorem at the sub-scores (50, 60, 70, 80). -/
theorem C3_witness :
    ResumeOptimizer.overall_score 50 60 70 80 =
      (⌊(50 : ℚ) * 0.4 + (60 : ℚ) * 0.2 + (70 : ℚ) * 0.2 + (80 : ℚ) * 0.2⌋).toNat ∧
    ResumeOptimizer.overall_score 50 60 70 80 = (4 * 50 + 2 * 60 + 2 * 70 + 2 * 80) / 10 ∧
    ResumeOptimizer.overall_score 50 60 70 80 ≤ 100 :=
  C3_theorem 50 60 70 80 (by norm_num) (by norm_num) (by norm_num) (by norm_num)

/-- Counterexample to C3 as stated: at sub-scores (99, 100, 100, 100) the
weighted sum is 99.6, whose nearest integer is 100, but the code truncates
and yields 99. -/
theorem C3_counterexample :
    ResumeOptimizer.overall_score 99 100 100 100 = 99 ∧
    round ((99 : ℚ) * 0.4 + (100 : ℚ) * 0.2 + (100 : ℚ) * 0.2 + (100 : ℚ) * 0.2) = 100 := by
  constructor
  · rfl
  · norm_num [round_eq]

/-- Claim C4 (corrected): the quantification detector classifies
"increased throughput by 35%" and "reduced cost by $10,000" as quantified
(each contains a decimal digit) and "worked on backend systems" as not
quantified; a Chinese keyword such as 提升 also triggers it; and in general
a string is quantified exactly when it contains a decimal digit or one of
the six Chinese quantification keywords — the English words "increased" and
"reduced" are not themselves keywords. -/
theorem C4_theorem :
    ResumeOptimizer.has_quantification "increased throughput by 35%" = true ∧
    ResumeOptimizer.has_quantification "reduced cost by $10,000" = true ∧
    ResumeOptimizer.has_quantification "worked on backend systems" = false ∧
    ResumeOptimizer.has_quantification "提升了系统性能" = true ∧
    (∀ t : String, ResumeOptimizer.has_quantification t = true ↔
      (t.data.any Char.isDigit = true ∨
        ∃ kw ∈ ResumeOptimizer.quantification_keywords,
          ResumeOptimizer.strContainsSub t kw = true)) := by
  refine ⟨by decide, by decide, by decide, by decide, fun t => ?_⟩
  simp [ResumeOptimizer.has_quantification, List.any_eq_true]

/-- Counterexample to C4 as stated: the claim says a string containing the
quantification keyword "increased" counts as quantified, but
"increased efficiency significantly" (which contains no digit) is classified
as not quantified, because the keyword list holds only the Chinese terms. -/
theorem C4_counterexample :
    ResumeOptimizer.strContainsSub "increased efficiency significantly" "increased" = true ∧
    ResumeOptimizer.has_quantification "increased efficiency significantly" = false := by
  constructor
  · decide
  · decide

namespace ResumeOptimizer

theorem int_match_score_eq_floor (rk : List String)
    (jk : List (String × List String)) :
    int_match_score rk jk = (⌊calculate_match_score rk jk⌋).toNat := by
  rw [int_match_score, calculate_match_score]
  split
  · norm_num
  · have h : (matched_jd_count rk jk : ℚ) / ((all_jd_keywords jk).length : ℚ) * 100 =
        ((matched_jd_count rk jk * 100 : ℕ) : ℚ) / (((all_jd_keywords jk).length : ℕ) : ℚ) := by
      push_cast
      ring
    rw [h, Rat.floor_natCast_div_natCast, ← Int.natCast_div, Int.toNat_natCast]

end ResumeOptimizer

/-- Claim C9 (corrected): the scorer is deterministic only relative to the
language-model response.  `calculate_ats_score` is a pure function of the
record and the model outcome — two invocations whose keyword model calls
return the same parsed structure yield identical `ATSScore`s — and the
format, structure and quantification sub-scores are determined by the
record alone. -/
theorem C9_theorem :
    (∀ (r : ResumeOptimizer.ResumeData) (o o' : ResumeOptimizer.JdKeywordsOutcome),
      ResumeOptimizer.extract_jd_keywords o = ResumeOptimizer.extract_jd_keywords o' →
      ResumeOptimizer.calculate_ats_score r o = ResumeOptimizer.calculate_ats_score r o') ∧
    (∀ (r : ResumeOptimizer.ResumeData) (o o' : ResumeOptimizer.JdKeywordsOutcome),
      (ResumeOptimizer.calculate_ats_score r o).format_score =
        (ResumeOptimizer.calculate_ats_score r o').format_score ∧
      (ResumeOptimizer.calculate_ats_score r o).structure_score =
        (ResumeOptimizer.calculate_ats_score r o').structure_score ∧
      (ResumeOptimizer.calculate_ats_score r o).quantification_score =
        (ResumeOptimizer.calculate_ats_score r o').quantification_score) := by
  constructor
  · intro r o o' h
    unfold ResumeOptimizer.calculate_ats_score
    rw [h]
  · intro r o o'
    exact ⟨rfl, rfl, rfl⟩

/-- Witness for C9_theorem: a parsed response equal to the failure fallback
gives the same score as a failed call, on the empty resume. -/
theorem C9_witness :
    ResumeOptimizer.calculate_ats_score
        { personal_info := none, work_experience := [], education := 0,
          skills := [], projects := [] }
        (ResumeOptimizer.JdKeywordsOutcome.parsed ResumeOptimizer.default_jd_keywords) =
      ResumeOptimizer.calculate_ats_score
        { personal_info := none, work_experience := [], education := 0,
          skills := [], projects := [] }
        ResumeOptimizer.JdKeywordsOutcome.failure :=
  C9_theorem.1 _ _ _ rfl

/-- Counterexample to C9 as stated: on the same (record, job description)
input, an invocation whose keyword model call returns "python" and one
whose call fails produce different `ATSScore`s, so the score is not a
function of the (record, job description) pair alone. -/
theorem C9_counterexample :
    ResumeOptimizer.calculate_ats_score
        { personal_info := none, work_experience := [], education := 0,
          skills := ["python"], projects := [] }
        (ResumeOptimizer.JdKeywordsOutcome.parsed [("technical", ["python"])]) ≠
      ResumeOptimizer.calculate_ats_score
        { personal_info := none, work_experience := [], education := 0,
          skills := ["python"], projects := [] }
        ResumeOptimizer.JdKeywordsOutcome.failure := by
  decide

namespace TemplatesVM

theorem set_active_version_versions (vid : String) (st : Store) :
    (set_active_version vid st).versions = st.versions.map
      (fun r => if r.version_id = vid then { r with is_active := true }
        else { r with is_active := false }) := by
  simp only [set_active_version, List.map_map]
  apply List.map_congr_left
  intro r _
  by_cases h : r.version_id = vid <;> simp [h]

theorem count_eq_count_map {α β : Type} [DecidableEq β] (f : α → β) (a : β) :
    ∀ l : List α, (l.map f).count a = l.countP (fun x => f x == a)
  | [] => rfl
  | x :: l => by
    by_cases h : f x = a
    · simp [List.count_cons, List.countP_cons, h, count_eq_count_map f a l]
    · simp [List.count_cons, List.countP_cons, h, count_eq_count_map f a l]

theorem active_count_eq_countP (st : Store) :
    active_count st = st.versions.countP (fun r => r.is_active) :=
  (List.countP_eq_length_filter _ _).symm

theorem ids_set_active (vid : String) (st : Store) :
    (set_active_version vid st).versions.map VersionRow.version_id =
      st.versions.map VersionRow.version_id := by
  rw [set_active_version_versions, List.map_map]
  apply List.map_congr_left
  intro r _
  by_cases h : r.version_id = vid <;> simp [h]

theorem mem_set_active_iff (vid : String) (st : Store) :
    ∀ r ∈ (set_active_version vid st).versions,
      (r.is_active = true ↔ r.version_id = vid) := by
  rw [set_active_version_versions]
  intro r hr
  rcases List.mem_map.mp hr with ⟨r0, _, rfl⟩
  by_cases h : r0.version_id = vid <;> simp [h]

theorem active_count_set_active (vid : String) (st : Store)
    (hn : (st.versions.map VersionRow.version_id).Nodup)
    (hm : vid ∈ st.versions.map VersionRow.version_id) :
    active_count (set_active_version vid st) = 1 := by
  rw [active_count_eq_countP, set_active_version_versions, List.countP_map]
  have hcong : st.versions.countP
      ((fun r => r.is_active) ∘ fun r =>
        if r.version_id = vid then { r with is_active := true }
        else { r with is_active := false }) =
      st.versions.countP (fun r => r.version_id == vid) := by
    apply List.countP_congr
    intro r _
    by_cases h : r.version_id = vid <;> simp [h]
  rw [hcong, ← count_eq_count_map]
  exact List.count_eq_one_of_mem hn hm

end TemplatesVM

/-- Claim C1 (corrected): in the templates.db version manager
(`ResumeVersionManager` of src/resume_optimizer.py) the exclusivity
invariant holds: after `set_active_version(v2)` following
`set_active_version(v1)`, a row is active exactly when its id is v2 — so
with unique ids and v2 present, exactly one row (v2) is active and v1 is
inactive — the clear-then-set runs in one transaction, and create (which
inserts inactive), update (which cannot touch the flag) and delete
preserve the active-row count; the active rows of one ownership scope are
among the globally active rows.  (The claim fails for the other store, see
the counterexample.) -/
theorem C1_theorem :
    (∀ (st : TemplatesVM.Store) (v1 v2 : String),
      (st.versions.map TemplatesVM.VersionRow.version_id).Nodup →
      v2 ∈ st.versions.map TemplatesVM.VersionRow.version_id →
      (∀ r ∈ (TemplatesVM.set_active_version v2
          (TemplatesVM.set_active_version v1 st)).versions,
        (r.is_active = true ↔ r.version_id = v2)) ∧
      TemplatesVM.active_count
        (TemplatesVM.set_active_version v2 (TemplatesVM.set_active_version v1 st)) = 1) ∧
    (∀ (st : TemplatesVM.Store) (vid payload : String) (uid : Option String),
      TemplatesVM.active_count (TemplatesVM.create_version vid payload uid st) =
        TemplatesVM.active_count st ∧
      TemplatesVM.active_count (TemplatesVM.update_version vid payload st) =
        TemplatesVM.active_count st ∧
      TemplatesVM.active_count (TemplatesVM.delete_version vid st).2 ≤
        TemplatesVM.active_count st) ∧
    (∀ (st : TemplatesVM.Store) (uid : Option String),
      TemplatesVM.scope_active_count uid st ≤ TemplatesVM.active_count st) := by
  refine ⟨?_, ?_, ?_⟩
  · intro st v1 v2 hn hm
    constructor
    · exact TemplatesVM.mem_set_active_iff v2 (TemplatesVM.set_active_version v1 st)
    · apply TemplatesVM.active_count_set_active
      · rw [TemplatesVM.ids_set_active]
        exact hn
      · rw [TemplatesVM.ids_set_active]
        exact hm
  · intro st vid payload uid
    refine ⟨?_, ?_, ?_⟩
    · simp [TemplatesVM.create_version, TemplatesVM.active_count, List.filter_append]
    · rw [TemplatesVM.active_count_eq_countP, TemplatesVM.active_count_eq_countP,
        TemplatesVM.update_version]
      simp only [List.countP_map]
      apply List.countP_congr
      intro r _
      by_cases h : r.version_id = vid <;> simp [h]
    · rw [TemplatesVM.active_count_eq_countP, TemplatesVM.active_count_eq_countP,
        TemplatesVM.delete_version]
      split
      · exact (List.filter_sublist _).countP_le _
      · exact le_refl _
  · intro st uid
    rw [TemplatesVM.scope_active_count, TemplatesVM.active_count,
      ← List.countP_eq_length_filter, ← List.countP_eq_length_filter]
    apply List.countP_mono_left
    intro r _ h
    exact (Bool.and_elim_left h)

/-- Witness for C1_theorem on a two-row store: activating "a" then "b"
leaves exactly "b" active. -/
theorem C1_witness :
    (∀ r ∈ (TemplatesVM.set_active_version "b"
        (TemplatesVM.set_active_version "a"
          { versions :=
              [{ version_id := "a", fields := "x", user_id := none, is_active := false },
                { version_id := "b", fields := "y", user_id := none, is_active := false }],
            comparisons := [] })).versions,
      (r.is_active = true ↔ r.version_id = "b")) ∧
    TemplatesVM.active_count
      (TemplatesVM.set_active_version "b"
        (TemplatesVM.set_active_version "a"
          { versions :=
              [{ version_id := "a", fields := "x", user_id := none, is_active := false },
                { version_id := "b", fields := "y", user_id := none, is_active := false }],
            comparisons := [] })) = 1 :=
  C1_theorem.1 _ "a" "b" (by decide) (by decide)

/-- Counterexample to C1 as stated: in the resume_versions.db manager
(`ResumeVersionManager` of src/resume_version_manager.py, one of the
claimed operations), `create_version` inserts rows with `is_active = True`,
so after two creates two versions carry the active flag: there the flag is
a soft-delete liveness marker, not an exclusive active marker. -/
theorem C1_counterexample :
    Rvm.active_flag_count
      (Rvm.create_version "v2" "c2" (Rvm.create_version "v1" "c1" [])) = 2 := by
  decide

/-- Claim C7 (confirmed): deleting a stored version removes its row and
every comparison-cache row referencing it as either endpoint, reports
success, and keeps every cache row that references it on neither side. -/
theorem C7_theorem (vid : String) (st : TemplatesVM.Store)
    (h : ∃ r ∈ st.versions, r.version_id = vid) :
    (TemplatesVM.delete_version vid st).1 = true ∧
    (∀ r ∈ (TemplatesVM.delete_version vid st).2.versions, r.version_id ≠ vid) ∧
    (∀ c ∈ (TemplatesVM.delete_version vid st).2.comparisons,
      c.version1_id ≠ vid ∧ c.version2_id ≠ vid) ∧
    (∀ c ∈ st.comparisons, c.version1_id ≠ vid → c.version2_id ≠ vid →
      c ∈ (TemplatesVM.delete_version vid st).2.comparisons) := by
  have hany : st.versions.any (fun r => r.version_id = vid) = true := by
    rcases h with ⟨r, hr, hrv⟩
    exact List.any_eq_true.mpr ⟨r, hr, by simp [hrv]⟩
  refine ⟨?_, ?_, ?_, ?_⟩
  · simp [TemplatesVM.delete_version, hany]
  · intro r hr
    simp only [TemplatesVM.delete_version, hany, if_true] at hr
    have := (List.mem_filter.mp hr).2
    simpa using this
  · intro c hc
    simp only [TemplatesVM.delete_version, hany, if_true] at hc
    have := (List.mem_filter.mp hc).2
    simpa using this
  · intro c hc h1 h2
    simp only [TemplatesVM.delete_version, hany, if_true]
    apply List.mem_filter.mpr
    refine ⟨hc, ?_⟩
    simp [h1, h2]

/-- Witness for C7_theorem: deleting version "a" from a store with two
versions and two cache rows removes the row for "a" and the cache row
mentioning "a", and keeps the ("c","d") cache row. -/
theorem C7_witness :
    (TemplatesVM.delete_version "a"
      { versions :=
          [{ version_id := "a", fields := "x", user_id := none, is_active := false },
            { version_id := "b", fields := "y", user_id := none, is_active := true }],
        comparisons :=
          [{ id := "k1", version1_id := "a", version2_id := "b",
              comparison_result := "r1", created_time := 5 },
            { id := "k2", version1_id := "c", version2_id := "d",
              comparison_result := "r2", created_time := 6 }] }).1 = true ∧
    (∀ r ∈ (TemplatesVM.delete_version "a"
      { versions :=
          [{ version_id := "a", fields := "x", user_id := none, is_active := false },
            { version_id := "b", fields := "y", user_id := none, is_active := true }],
        comparisons :=
          [{ id := "k1", version1_id := "a", version2_id := "b",
              comparison_result := "r1", created_time := 5 },
            { id := "k2", version1_id := "c", version2_id := "d",
              comparison_result := "r2", created_time := 6 }] }).2.versions,
      r.version_id ≠ "a") ∧
    (∀ c ∈ (TemplatesVM.delete_version "a"
      { versions :=
          [{ version_id := "a", fields := "x", user_id := none, is_active := false },
            { version_id := "b", fields := "y", user_id := none, is_active := true }],
        comparisons :=
          [{ id := "k1", version1_id := "a", version2_id := "b",
              comparison_result := "r1", created_time := 5 },
            { id := "k2", version1_id := "c", version2_id := "d",
              comparison_result := "r2", created_time := 6 }] }).2.comparisons,
      c.version1_id ≠ "a" ∧ c.version2_id ≠ "a") ∧
    (∀ c ∈ ([{ id := "k1", version1_id := "a", version2_id := "b",
                comparison_result := "r1", created_time := 5 },
              { id := "k2", version1_id := "c", version2_id := "d",
                comparison_result := "r2",
                created_time := 6 }] : List TemplatesVM.ComparisonRow),
      c.version1_id ≠ "a" → c.version2_id ≠ "a" →
      c ∈ (TemplatesVM.delete_version "a"
        { versions :=
            [{ version_id := "a", fields := "x", user_id := none, is_active := false },
              { version_id := "b", fields := "y", user_id := none, is_active := true }],
          comparisons :=
            [{ id := "k1", version1_id := "a", version2_id := "b",
                comparison_result := "r1", created_time := 5 },
              { id := "k2", version1_id := "c", version2_id := "d",
                comparison_result := "r2", created_time := 6 }] }).2.comparisons) :=
  C7_theorem "a" _ (by decide)

namespace TemplatesVM

theorem pick_newest_mem : ∀ {l : List ComparisonRow} {d : ComparisonRow},
    pick_newest l = some d → d ∈ l
  | [], _, h => by simp [pick_newest] at h
  | c :: rest, d, h => by
    rw [pick_newest] at h
    cases hr : pick_newest rest with
    | none =>
      rw [hr] at h
      simp at h
      simp [h]
    | some e =>
      rw [hr] at h
      by_cases hgt : e.created_time > c.created_time
      · simp [hgt] at h
        exact List.mem_cons_of_mem c (h ▸ pick_newest_mem hr)
      · simp [hgt] at h
        simp [h]

theorem pick_newest_eq_none : ∀ {l : List ComparisonRow},
    pick_newest l = none → l = []
  | [], _ => rfl
  | c :: rest, h => by
    rw [pick_newest] at h
    cases hr : pick_newest rest with
    | none => rw [hr] at h; cases h
    | some e =>
      rw [hr] at h
      by_cases hgt : e.created_time > c.created_time
      · simp [hgt] at h
      · simp [hgt] at h

theorem pick_newest_max : ∀ {l : List ComparisonRow} {d : ComparisonRow},
    pick_newest l = some d → ∀ c ∈ l, c.created_time ≤ d.created_time
  | [], _, h => by simp [pick_newest] at h
  | c :: rest, d, h => by
    rw [pick_newest] at h
    cases hr : pick_newest rest with
    | none =>
      rw [hr] at h
      have hd : c = d := by simpa using h
      have hrest : rest = [] := pick_newest_eq_none hr
      intro x hx
      rcases List.mem_cons.mp hx with rfl | hx
      · exact hd ▸ le_refl _
      · rw [hrest] at hx; cases hx
    | some e =>
      rw [hr] at h
      intro x hx
      rcases List.mem_cons.mp hx with rfl | hx
      · by_cases hgt : e.created_time > x.created_time
        · simp [hgt] at h
          exact h ▸ le_of_lt hgt
        · simp [hgt] at h
          exact h ▸ le_refl _
      · have hle := pick_newest_max hr x hx
        by_cases hgt : e.created_time > c.created_time
        · simp [hgt] at h
          exact h ▸ hle
        · simp [hgt] at h
          exact h ▸ le_trans hle (not_lt.mp hgt)

theorem pick_newest_append_last (l : List ComparisonRow) (x : ComparisonRow)
    (h : ∀ c ∈ l, c.created_time < x.created_time) :
    pick_newest (l ++ [x]) = some x := by
  induction l with
  | nil => rfl
  | cons c rest ih =>
    have hx : pick_newest (rest ++ [x]) = some x := by
      apply ih
      intro d hd
      exact h d (List.mem_cons_of_mem c hd)
    rw [List.cons_append, pick_newest, hx]
    have := h c (List.mem_cons_self c rest)
    simp [this]

theorem matches_pair_symm (v1 v2 : String) (c : ComparisonRow) :
    matches_pair v2 v1 c = matches_pair v1 v2 c := by
  rw [matches_pair, matches_pair, Bool.or_comm]

theorem expired_of_miss {now : Nat} {a b : String} {st : Store}
    (h : get_cached_comparison now a b st = none) :
    ∀ c ∈ st.comparisons.filter (matches_pair a b),
      c.created_time + 24 * 3600 ≤ now := by
  rw [get_cached_comparison] at h
  cases hpick : pick_newest (st.comparisons.filter (matches_pair a b)) with
  | none =>
    have hempty := pick_newest_eq_none hpick
    intro c hc
    rw [hempty] at hc
    cases hc
  | some d =>
    rw [hpick] at h
    have hexp : ¬ (now - d.created_time < 24 * 3600) := by
      intro hlt
      simp [hlt] at h
    intro c hc
    have hle := pick_newest_max hpick c hc
    omega

theorem get_cached_after_cache {now : Nat} {a b : String} {st : Store}
    (hmiss : get_cached_comparison now a b st = none)
    (cid result : String) (t2 : Nat) :
    get_cached_comparison t2 a b (cache_comparison cid a b result now st) =
      (if t2 - now < 24 * 3600 then some result else none) ∧
    get_cached_comparison t2 b a (cache_comparison cid a b result now st) =
      (if t2 - now < 24 * 3600 then some result else none) := by
  have hexp := expired_of_miss hmiss
  have hfilter : (cache_comparison cid a b result now st).comparisons.filter
      (matches_pair a b) =
      st.comparisons.filter (matches_pair a b) ++
        [{ id := cid, version1_id := a, version2_id := b,
            comparison_result := result, created_time := now }] := by
    rw [cache_comparison, List.filter_append]
    congr 1
    simp [matches_pair]
  have hpick : pick_newest ((cache_comparison cid a b result now st).comparisons.filter
      (matches_pair a b)) =
      some { id := cid, version1_id := a, version2_id := b,
              comparison_result := result, created_time := now } := by
    rw [hfilter]
    apply pick_newest_append_last
    intro c hc
    have := hexp c hc
    simp only []
    omega
  have hsame : (cache_comparison cid a b result now st).comparisons.filter
      (matches_pair b a) =
      (cache_comparison cid a b result now st).comparisons.filter (matches_pair a b) := by
    apply List.filter_congr
    intro c _
    exact matches_pair_symm a b c
  constructor
  · rw [get_cached_comparison, hpick]
  · rw [get_cached_comparison, hsame, hpick]

theorem compare_cached_of_none (compute : String → String → String) (cid : String)
    {now : Nat} {v1 v2 : String} {st : Store}
    (h : get_cached_comparison now v1 v2 st = none) :
    compare_cached compute cid now v1 v2 st =
      (compute v1 v2, cache_comparison cid v1 v2 (compute v1 v2) now st) := by
  simp only [compare_cached]
  rw [h]

theorem compare_cached_of_some (compute : String → String → String) (cid : String)
    {now : Nat} {v1 v2 : String} {st : Store} {r : String}
    (h : get_cached_comparison now v1 v2 st = some r) :
    compare_cached compute cid now v1 v2 st = (r, st) := by
  simp only [compare_cached]
  rw [h]

end TemplatesVM

/-- Claim C8 (confirmed; the compare orchestration is modelled from the
spec, the lookup and expiry logic is the code of `get_cached_comparison`):
after a compare(A,B) that misses the cache, computes and caches at time
`now`, any second compare within 24 hours — as (A,B) or as (B,A) — returns
the identical cached result without touching the store; once 24 hours have
elapsed the cached row is ignored (the lookup returns None) and the
comparison is freshly recomputed. -/
theorem C8_theorem (compute : String → String → String)
    (cid cid2 cid3 : String) (now t2 : Nat) (a b : String)
    (st : TemplatesVM.Store)
    (hmiss : TemplatesVM.get_cached_comparison now a b st = none) :
    (TemplatesVM.compare_cached compute cid now a b st).1 = compute a b ∧
    (t2 - now < 24 * 3600 →
      (TemplatesVM.compare_cached compute cid2 t2 a b
          (TemplatesVM.compare_cached compute cid now a b st).2).1 =
        (TemplatesVM.compare_cached compute cid now a b st).1 ∧
      (TemplatesVM.compare_cached compute cid3 t2 b a
          (TemplatesVM.compare_cached compute cid now a b st).2).1 =
        (TemplatesVM.compare_cached compute cid now a b st).1 ∧
      (TemplatesVM.compare_cached compute cid2 t2 a b
          (TemplatesVM.compare_cached compute cid now a b st).2).2 =
        (TemplatesVM.compare_cached compute cid now a b st).2) ∧
    (24 * 3600 ≤ t2 - now →
      TemplatesVM.get_cached_comparison t2 a b
        (TemplatesVM.compare_cached compute cid now a b st).2 = none ∧
      (TemplatesVM.compare_cached compute cid2 t2 a b
          (TemplatesVM.compare_cached compute cid now a b st).2).1 = compute a b) := by
  have hfirst := TemplatesVM.compare_cached_of_none compute cid hmiss
  have hafter := TemplatesVM.get_cached_after_cache hmiss cid (compute a b) t2
  refine ⟨by rw [hfirst], ?_, ?_⟩
  · intro hlt
    have ha : TemplatesVM.get_cached_comparison t2 a b
        (TemplatesVM.compare_cached compute cid now a b st).2 = some (compute a b) := by
      rw [hfirst]
      show TemplatesVM.get_cached_comparison t2 a b
        (TemplatesVM.cache_comparison cid a b (compute a b) now st) = some (compute a b)
      rw [hafter.1, if_pos hlt]
    have hb : TemplatesVM.get_cached_comparison t2 b a
        (TemplatesVM.compare_cached compute cid now a b st).2 = some (compute a b) := by
      rw [hfirst]
      show TemplatesVM.get_cached_comparison t2 b a
        (TemplatesVM.cache_comparison cid a b (compute a b) now st) = some (compute a b)
      rw [hafter.2, if_pos hlt]
    refine ⟨?_, ?_, ?_⟩
    · rw [TemplatesVM.compare_cached_of_some compute cid2 ha, hfirst]
    · rw [TemplatesVM.compare_cached_of_some compute cid3 hb, hfirst]
    · rw [TemplatesVM.compare_cached_of_some compute cid2 ha]
  · intro hge
    have hnone : TemplatesVM.get_cached_comparison t2 a b
        (TemplatesVM.compare_cached compute cid now a b st).2 = none := by
      rw [hfirst]
      show TemplatesVM.get_cached_comparison t2 a b
        (TemplatesVM.cache_comparison cid a b (compute a b) now st) = none
      rw [hafter.1, if_neg (by omega)]
    refine ⟨hnone, ?_⟩
    rw [TemplatesVM.compare_cached_of_none compute cid2 hnone]

/-- Witness for C8_theorem on the empty store: a first compare of
("v1","v2") at time 0 computes and caches; a repeat at time 10 (within the
window) in either orientation returns the same result, and after 24 hours
the cache misses and the comparison is recomputed. -/
theorem C8_witness :
    (TemplatesVM.compare_cached (fun _ _ => "diff") "c1" 0 "v1" "v2"
      { versions := [], comparisons := [] }).1 = (fun _ _ => "diff") "v1" "v2" ∧
    (10 - 0 < 24 * 3600 →
      (TemplatesVM.compare_cached (fun _ _ => "diff") "c2" 10 "v1" "v2"
          (TemplatesVM.compare_cached (fun _ _ => "diff") "c1" 0 "v1" "v2"
            { versions := [], comparisons := [] }).2).1 =
        (TemplatesVM.compare_cached (fun _ _ => "diff") "c1" 0 "v1" "v2"
          { versions := [], comparisons := [] }).1 ∧
      (TemplatesVM.compare_cached (fun _ _ => "diff") "c3" 10 "v2" "v1"
          (TemplatesVM.compare_cached (fun _ _ => "diff") "c1" 0 "v1" "v2"
            { versions := [], comparisons := [] }).2).1 =
        (TemplatesVM.compare_cached (fun _ _ => "diff") "c1" 0 "v1" "v2"
          { versions := [], comparisons := [] }).1 ∧
      (TemplatesVM.compare_cached (fun _ _ => "diff") "c2" 10 "v1" "v2"
          (TemplatesVM.compare_cached (fun _ _ => "diff") "c1" 0 "v1" "v2"
            { versions := [], comparisons := [] }).2).2 =
        (TemplatesVM.compare_cached (fun _ _ => "diff") "c1" 0 "v1" "v2"
          { versions := [], comparisons := [] }).2) ∧
    (24 * 3600 ≤ 10 - 0 →
      TemplatesVM.get_cached_comparison 10 "v1" "v2"
        (TemplatesVM.compare_cached (fun _ _ => "diff") "c1" 0 "v1" "v2"
          { versions := [], comparisons := [] }).2 = none ∧
      (TemplatesVM.compare_cached (fun _ _ => "diff") "c2" 10 "v1" "v2"
          (TemplatesVM.compare_cached (fun _ _ => "diff") "c1" 0 "v1" "v2"
            { versions := [], comparisons := [] }).2).1 =
        (fun _ _ => "diff") "v1" "v2") :=
  C8_theorem (fun _ _ => "diff") "c1" "c2" "c3" 0 10 "v1" "v2"
    { versions := [], comparisons := [] } (by decide)

namespace Parser

theorem kw_consume_some : ∀ {kw s rest : List Char},
    kw_consume kw s = some rest → s = kw ++ rest
  | [], s, rest, h => by
    rw [kw_consume] at h
    cases h
    rfl
  | k :: ks, [], rest, h => by cases h
  | k :: ks, c :: cs, rest, h => by
    rw [kw_consume] at h
    by_cases hk : k = c
    · rw [if_pos hk] at h
      have := kw_consume_some h
      rw [List.cons_append, ← this, hk]
    · rw [if_neg hk] at h
      cases h

theorem matches_here_take {kw prev : _} {s : List Char}
    (h : matches_here kw prev s = true) : s.take kw.length = kw := by
  rw [matches_here] at h
  have h2 := (Bool.and_eq_true_iff.mp h).2
  cases hk : kw_consume kw s with
  | none => rw [hk] at h2; cases h2
  | some rest =>
    have := kw_consume_some hk
    rw [this, List.take_left]

theorem scan_match_some : ∀ (l : List Char) (kw : List Char) (prev : Option Char)
    (i j : Nat), scan_match kw prev l i = some j →
    ∃ d, j = i + d ∧ (l.drop d).take kw.length = kw
  | [], kw, prev, i, j, h => by
    rw [scan_match] at h
    by_cases hm : matches_here kw prev [] = true
    · rw [if_pos hm] at h
      cases h
      exact ⟨0, by omega, matches_here_take hm⟩
    · rw [if_neg hm] at h
      cases h
  | c :: rest, kw, prev, i, j, h => by
    rw [scan_match] at h
    by_cases hm : matches_here kw prev (c :: rest) = true
    · rw [if_pos hm] at h
      cases h
      exact ⟨0, by omega, matches_here_take hm⟩
    · rw [if_neg hm] at h
      rcases scan_match_some rest kw (some c) (i + 1) j h with ⟨d, hd, htake⟩
      exact ⟨d + 1, by omega, htake⟩

theorem find_match_index_slice (text kw : String) (i : Nat)
    (h : find_match_index text kw = some i) :
    (slice_at text i kw.data.length).data.map Char.toLower =
      kw.data.map Char.toLower := by
  rcases scan_match_some (ResumeOptimizer.str_lower text).data
      (ResumeOptimizer.str_lower kw).data none 0 i h with ⟨d, hd, htake⟩
  have hi : i = d := by omega
  subst hi
  have hlen : (ResumeOptimizer.str_lower kw).data.length = kw.data.length := by
    simp [ResumeOptimizer.str_lower]
  rw [hlen] at htake
  rw [slice_at]
  show ((text.data.drop i).take kw.data.length).map Char.toLower = _
  rw [List.map_take, List.map_drop]
  have : text.data.map Char.toLower = (ResumeOptimizer.str_lower text).data := rfl
  rw [this, htake]
  rfl

theorem slice_at_decomp (text : String) (i len : Nat) :
    ∃ pre post, text.data = pre ++ (slice_at text i len).data ++ post := by
  refine ⟨text.data.take i, text.data.drop (i + len), ?_⟩
  rw [slice_at]
  show text.data = text.data.take i ++ (text.data.drop i).take len ++ _
  have h1 : text.data = text.data.take i ++ text.data.drop i :=
    (List.take_append_drop i text.data).symm
  have h2 : text.data.drop i =
      (text.data.drop i).take len ++ (text.data.drop i).drop len :=
    (List.take_append_drop len (text.data.drop i)).symm
  have h3 : (text.data.drop i).drop len = text.data.drop (i + len) := by
    rw [List.drop_drop]
  calc text.data = text.data.take i ++ text.data.drop i := h1
    _ = text.data.take i ++ ((text.data.drop i).take len ++ (text.data.drop i).drop len) := by
        rw [← h2]
    _ = text.data.take i ++ (text.data.drop i).take len ++ text.data.drop (i + len) := by
        rw [h3, List.append_assoc]

theorem mem_extract_category (text : String) :
    ∀ (kws : List String) (skill : String) (start : List String),
      skill ∈ kws.foldl (fun acc kw =>
        if (find_match_index text kw).isSome then
          let orig := find_original_case text kw
          if orig ≠ "" ∧ orig ∉ acc then acc ++ [orig] else acc
        else acc) start →
      skill ∈ start ∨ ∃ kw ∈ kws, (find_match_index text kw).isSome ∧
        skill = find_original_case text kw := by
  intro kws
  induction kws with
  | nil =>
    intro skill start h
    exact Or.inl h
  | cons kw rest ih =>
    intro skill start h
    rw [List.foldl_cons] at h
    rcases ih skill _ h with hstart | ⟨kw2, hkw2, hsome, hskill⟩
    · by_cases hs : (find_match_index text kw).isSome
      · simp only [hs, if_true] at hstart
        by_cases hadd : find_original_case text kw ≠ "" ∧
            find_original_case text kw ∉ start
        · rw [if_pos hadd] at hstart
          rcases List.mem_append.mp hstart with hin | hnew
          · exact Or.inl hin
          · right
            refine ⟨kw, List.mem_cons_self kw rest, hs, ?_⟩
            simpa using hnew
        · rw [if_neg hadd] at hstart
          exact Or.inl hstart
      · simp only [hs, if_false] at hstart
        exact Or.inl hstart
    · exact Or.inr ⟨kw2, List.mem_cons_of_mem kw hkw2, hsome, hskill⟩

end Parser

/-- Claim C5 (confirmed): keyword matching is case-insensitive with word
boundaries and preserves original casing: whenever a keyword matches at
index i, `_find_original_case` returns the slice of the original text at i,
which is a substring of the source text equal to the keyword up to case;
every skill emitted by a category extraction is such an original-case
occurrence of one of its keywords; and the category list ["python"] on
"I used Python extensively" yields ["Python"]. -/
theorem C5_theorem :
    Parser.extract_category "I used Python extensively" ["python"] = ["Python"] ∧
    (∀ (text kw : String) (i : Nat), Parser.find_match_index text kw = some i →
      Parser.find_original_case text kw = Parser.slice_at text i kw.data.length ∧
      (Parser.slice_at text i kw.data.length).data.map Char.toLower =
        kw.data.map Char.toLower ∧
      ∃ pre post, text.data =
        pre ++ (Parser.slice_at text i kw.data.length).data ++ post) ∧
    (∀ (text skill : String) (kws : List String),
      skill ∈ Parser.extract_category text kws →
      ∃ kw ∈ kws, (Parser.find_match_index text kw).isSome ∧
        skill = Parser.find_original_case text kw) := by
  refine ⟨by decide, ?_, ?_⟩
  · intro text kw i h
    refine ⟨?_, Parser.find_match_index_slice text kw i h, Parser.slice_at_decomp text i _⟩
    rw [Parser.find_original_case, h]
  · intro text skill kws h
    rcases Parser.mem_extract_category text kws skill [] h with hin | hfound
    · cases hin
    · exact hfound

/-- Witness for C5_theorem: the keyword "python" matches
"I used Python extensively" at index 7 and the returned original casing is
the slice "Python" of the source text. -/
theorem C5_witness :
    Parser.find_original_case "I used Python extensively" "python" =
      Parser.slice_at "I used Python extensively" 7 "python".data.length ∧
    (Parser.slice_at "I used Python extensively" 7 "python".data.length).data.map
        Char.toLower = "python".data.map Char.toLower ∧
    ∃ pre post, "I used Python extensively".data =
      pre ++ (Parser.slice_at "I used Python extensively" 7
        "python".data.length).data ++ post :=
  C5_theorem.2.1 "I used Python extensively" "python" 7 (by decide)

/-- Claim C10 (confirmed): the version-content similarity is symmetric, it
always lies in [0,1], it is 1 on equal non-empty contents and 0 when both
contents are empty. -/
theorem C10_theorem :
    (∀ (V : Type) [DecidableEq V] (c1 c2 : List (String × V)),
      Rvm.calculate_similarity c1 c2 = Rvm.calculate_similarity c2 c1) ∧
    (∀ (V : Type) [DecidableEq V] (c1 c2 : List (String × V)),
      0 ≤ Rvm.calculate_similarity c1 c2 ∧ Rvm.calculate_similarity c1 c2 ≤ 1) ∧
    (∀ (V : Type) [DecidableEq V] (c : List (String × V)),
      c ≠ [] → Rvm.calculate_similarity c c = 1) ∧
    (∀ (V : Type) [DecidableEq V],
      Rvm.calculate_similarity ([] : List (String × V)) [] = 0) := by
  refine ⟨?_, ?_, ?_, ?_⟩
  · intro V _ c1 c2
    simp only [Rvm.calculate_similarity]
    rw [Finset.union_comm]
    rw [Finset.filter_congr (fun k _ => eq_comm (a := Rvm.dict_get c1 k) (b := Rvm.dict_get c2 k))]
  · intro V _ c1 c2
    simp only [Rvm.calculate_similarity]
    split
    case isTrue h =>
      have hpos : (0 : ℚ) <
          (((Rvm.dict_keys c1).toFinset ∪ (Rvm.dict_keys c2).toFinset).card : ℚ) := by
        exact_mod_cast h
      constructor
      · apply div_nonneg _ (le_of_lt hpos)
        positivity
      · rw [div_le_one hpos]
        exact_mod_cast Finset.card_filter_le _ _
    case isFalse h => norm_num
  · intro V _ c hne
    simp only [Rvm.calculate_similarity]
    have hu : (Rvm.dict_keys c).toFinset ∪ (Rvm.dict_keys c).toFinset =
        (Rvm.dict_keys c).toFinset := Finset.union_self _
    rw [hu, Finset.filter_True]
    have hpos : 0 < (Rvm.dict_keys c).toFinset.card := by
      apply Finset.card_pos.mpr
      cases c with
      | nil => exact absurd rfl hne
      | cons p rest => exact ⟨p.1, by simp [Rvm.dict_keys]⟩
    rw [if_pos hpos]
    apply div_self
    exact_mod_cast Nat.pos_iff_ne_zero.mp hpos
  · intro V _
    simp [Rvm.calculate_similarity, Rvm.dict_keys]

/-- Witness for C10_theorem: a one-key content compared with itself has
similarity 1. -/
theorem C10_witness :
    Rvm.calculate_similarity [("skills", (1 : Nat))] [("skills", 1)] = 1 :=
  C10_theorem.2.2.1 Nat [("skills", 1)] (by decide)

namespace Parser

theorem merge_category_nil (l : List String) : merge_category [] l = l := by
  rw [merge_category]
  simp

theorem merge_fallback (ts : TechSkills) :
    merge_and_validate_results fallback_structure ts =
      { fallback_structure with technical_skills := ts } := by
  rw [merge_and_validate_results]
  simp [fallback_structure, merge_category_nil]

theorem parse_resume_fallback (text : String) (o : LLMExtractOutcome)
    (ho : extract_with_enhanced_openai o = fallback_structure) :
    (parse_resume text o).raw_text = text ∧
    (parse_resume text o).parsing_confidence =
      (((if total_skills (extract_skills_with_regex text) > 0 then
          min 30 (total_skills (extract_skills_with_regex text) * 2) else 0) +
        (if (ResumeOptimizer.str_trim text).length > 200 then 10 else 0) : ℕ) : ℚ)
        / 100 ∧
    ((parse_resume text o).parsing_confidence = 0 ↔
      total_skills (extract_skills_with_regex text) = 0 ∧
      (ResumeOptimizer.str_trim text).length ≤ 200) := by
  have hpts : confidence_points
      (merge_and_validate_results (extract_with_enhanced_openai o)
        (extract_skills_with_regex text)) text =
      (if total_skills (extract_skills_with_regex text) > 0 then
        min 30 (total_skills (extract_skills_with_regex text) * 2) else 0) +
      (if (ResumeOptimizer.str_trim text).length > 200 then 10 else 0) := by
    rw [ho, merge_fallback]
    rw [confidence_points]
    norm_num [fallback_structure, total_skills]
  have hconf : (parse_resume text o).parsing_confidence =
      calculate_parsing_confidence
        (merge_and_validate_results (extract_with_enhanced_openai o)
          (extract_skills_with_regex text)) text := rfl
  have hbound : confidence_points
      (merge_and_validate_results (extract_with_enhanced_openai o)
        (extract_skills_with_regex text)) text ≤ 100 := by
    rw [hpts]
    have h1 : (if total_skills (extract_skills_with_regex text) > 0 then
        min 30 (total_skills (extract_skills_with_regex text) * 2) else 0) ≤ 30 := by
      split
      · exact min_le_left _ _
      · omega
    have h2 : (if (ResumeOptimizer.str_trim text).length > 200 then 10 else 0) ≤ 10 := by
      split <;> omega
    omega
  have hmin : (parse_resume text o).parsing_confidence =
      ((confidence_points
        (merge_and_validate_results (extract_with_enhanced_openai o)
          (extract_skills_with_regex text)) text : ℕ) : ℚ) / 100 := by
    rw [hconf, calculate_parsing_confidence]
    apply min_eq_left
    rw [div_le_one (by norm_num)]
    exact_mod_cast le_trans hbound (by norm_num)
  refine ⟨rfl, ?_, ?_⟩
  · rw [hmin, hpts]
  · rw [hmin, hpts]
    constructor
    · intro hz
      have : ((if total_skills (extract_skills_with_regex text) > 0 then
          min 30 (total_skills (extract_skills_with_regex text) * 2) else 0) +
          (if (ResumeOptimizer.str_trim text).length > 200 then 10 else 0)) = 0 := by
        have := div_eq_zero_iff.mp hz
        rcases this with hnum | hden
        · exact_mod_cast hnum
        · norm_num at hden
      constructor
      · by_contra hts
        have hpos : 0 < total_skills (extract_skills_with_regex text) := Nat.pos_of_ne_zero hts
        rw [if_pos hpos] at this
        omega
      · by_contra hlen
        push_neg at hlen
        rw [if_pos hlen] at this
        omega
    · intro ⟨hts, hlen⟩
      rw [if_neg (by omega), if_neg (by omega)]
      norm_num

end Parser

/-- Claim C2 (corrected): for every malformed model response and for every
API failure, the extraction step returns the canonical empty fallback
record shape and `parse_resume` still returns a record without raising;
but the parsing confidence of that record is recomputed from the merged
data — min(30, 2 per regex-matched skill) plus 10 when the cleaned text
exceeds 200 characters, over 100 — and equals 0.0 exactly when no skill
matched and the text is at most 200 characters. -/
theorem C2_theorem (text : String) (o : Parser.LLMExtractOutcome)
    (h : o = Parser.LLMExtractOutcome.yaml_error ∨
      o = Parser.LLMExtractOutcome.api_failure) :
    Parser.extract_with_enhanced_openai o = Parser.fallback_structure ∧
    (Parser.parse_resume text o).raw_text = text ∧
    (Parser.parse_resume text o).parsing_confidence =
      (((if Parser.total_skills (Parser.extract_skills_with_regex text) > 0 then
          min 30 (Parser.total_skills (Parser.extract_skills_with_regex text) * 2)
        else 0) +
        (if (ResumeOptimizer.str_trim text).length > 200 then 10 else 0) : ℕ) : ℚ)
        / 100 ∧
    ((Parser.parse_resume text o).parsing_confidence = 0 ↔
      Parser.total_skills (Parser.extract_skills_with_regex text) = 0 ∧
      (ResumeOptimizer.str_trim text).length ≤ 200) := by
  have ho : Parser.extract_with_enhanced_openai o = Parser.fallback_structure := by
    rcases h with rfl | rfl <;> rfl
  have hrest := Parser.parse_resume_fallback text o ho
  exact ⟨ho, hrest.1, hrest.2.1, hrest.2.2⟩

/-- Witness for C2_theorem at a short text and a malformed-YAML response. -/
theorem C2_witness :
    Parser.extract_with_enhanced_openai Parser.LLMExtractOutcome.yaml_error =
      Parser.fallback_structure ∧
    (Parser.parse_resume "hi" Parser.LLMExtractOutcome.yaml_error).raw_text = "hi" ∧
    (Parser.parse_resume "hi" Parser.LLMExtractOutcome.yaml_error).parsing_confidence =
      (((if Parser.total_skills (Parser.extract_skills_with_regex "hi") > 0 then
          min 30 (Parser.total_skills (Parser.extract_skills_with_regex "hi") * 2)
        else 0) +
        (if (ResumeOptimizer.str_trim "hi").length > 200 then 10 else 0) : ℕ) : ℚ)
        / 100 ∧
    ((Parser.parse_resume "hi" Parser.LLMExtractOutcome.yaml_error).parsing_confidence
        = 0 ↔
      Parser.total_skills (Parser.extract_skills_with_regex "hi") = 0 ∧
      (ResumeOptimizer.str_trim "hi").length ≤ 200) :=
  C2_theorem "hi" Parser.LLMExtractOutcome.yaml_error (Or.inl rfl)

set_option maxRecDepth 100000 in
/-- Counterexample to C2 as stated: on a malformed model response with a
201-character text, the returned record has parsing confidence 0.1 (the
text-length bonus), not 0.0. -/
theorem C2_counterexample :
    (Parser.parse_resume (String.mk (List.replicate 201 'a'))
      Parser.LLMExtractOutcome.yaml_error).parsing_confidence = 1 / 10 ∧
    ((1 : ℚ) / 10 ≠ 0) := by
  constructor
  · have h := Parser.parse_resume_fallback (String.mk (List.replicate 201 'a'))
      Parser.LLMExtractOutcome.yaml_error rfl
    rw [h.2.1]
    have hts : Parser.total_skills
        (Parser.extract_skills_with_regex (String.mk (List.replicate 201 'a'))) = 0 := by
      decide
    have hlen : (ResumeOptimizer.str_trim (String.mk (List.replicate 201 'a'))).length
        = 201 := by decide
    rw [hts, hlen]
    norm_num
  · norm_num

/-- Claim C6 (corrected): for a path whose extension is not pdf, docx, doc
or txt, the dispatch raises ValueError inside `_extract_text_enhanced`, but
the method catches every exception itself and returns the empty string, so
the caller receives a normally returned value (""), not a typed
UnsupportedFormatError. -/
theorem C6_theorem (fs : Parser.FileOutcomes) (path : String)
    (hp : fs.file_present = true)
    (hext : Parser.file_extension path ∉ (["pdf", "docx", "doc", "txt"] : List String)) :
    Parser.extract_text_inner fs path =
      Parser.PyResult.exn ("不支持的文件格式: " ++ Parser.file_extension path) ∧
    Parser.extract_text_enhanced fs path = Parser.PyResult.ok "" := by
  have h1 : Parser.file_extension path ≠ "pdf" := by
    intro h; exact hext (by rw [h]; simp)
  have h2 : Parser.file_extension path ≠ "docx" := by
    intro h; exact hext (by rw [h]; simp)
  have h3 : Parser.file_extension path ≠ "doc" := by
    intro h; exact hext (by rw [h]; simp)
  have h4 : Parser.file_extension path ≠ "txt" := by
    intro h; exact hext (by rw [h]; simp)
  have hinner : Parser.extract_text_inner fs path =
      Parser.PyResult.exn ("不支持的文件格式: " ++ Parser.file_extension path) := by
    rw [Parser.extract_text_inner, hp]
    simp [h1, h2, h3, h4]
  refine ⟨hinner, ?_⟩
  rw [Parser.extract_text_enhanced, hinner]

/-- Witness for C6_theorem at the path "resume.xyz". -/
theorem C6_witness :
    Parser.extract_text_inner
      { file_present := true, pdf_result := Parser.PyResult.ok "P",
        docx_result := Parser.PyResult.ok "D", txt_result := Parser.PyResult.ok "T" }
      "resume.xyz" =
      Parser.PyResult.exn ("不支持的文件格式: " ++ Parser.file_extension "resume.xyz") ∧
    Parser.extract_text_enhanced
      { file_present := true, pdf_result := Parser.PyResult.ok "P",
        docx_result := Parser.PyResult.ok "D", txt_result := Parser.PyResult.ok "T" }
      "resume.xyz" = Parser.PyResult.ok "" :=
  C6_theorem _ "resume.xyz" rfl (by decide)

/-- Counterexample to C6 as stated: with the file present and extension
"xyz", the claim says extraction fails with a typed error reported to the
caller; the code instead returns the value "" (the internal ValueError is
swallowed by the catch-all of `_extract_text_enhanced`). -/
theorem C6_counterexample :
    Parser.extract_text_enhanced
      { file_present := true, pdf_result := Parser.PyResult.ok "P",
        docx_result := Parser.PyResult.ok "D", txt_result := Parser.PyResult.ok "T" }
      "resume.xyz" = Parser.PyResult.ok "" ∧
    Parser.extract_text_inner
      { file_present := true, pdf_result := Parser.PyResult.ok "P",
        docx_result := Parser.PyResult.ok "D", txt_result := Parser.PyResult.ok "T" }
      "resume.xyz" = Parser.PyResult.exn "不支持的文件格式: xyz" := by
  constructor
  · decide
  · decide
